import Mathlib

/-!
Shallow embedding of the THRIVE core (execution planner/validator, guarded
execution controller, wallet custody core) and proofs of the specification
claims about it.

Conventions of the embedding:
* Python `float` quantities (exposure quantities, step amounts, estimated
  cost) are modelled as exact rationals `ℚ`.  Every concrete input used in a
  counterexample or witness is a dyadic rational on which IEEE-754 double
  arithmetic is exact, so the modelled behaviour and the float behaviour
  coincide there.
* Python exceptions are modelled as `Except`/error results.  The source
  raises a single `PlanValidationError` class distinguished by its message
  string; the spec's error taxonomy (CapitalConservationError,
  NonDeterministicOrderError, ...) corresponds one-to-one to those message
  strings, so errors carry their exact source message.
* Python tuples/lists become `List`, `None`-able fields become `Option`.
-/

namespace Thrive

instance {ε α : Type} [DecidableEq ε] [DecidableEq α] : DecidableEq (Except ε α)
  | .ok a, .ok b => decidable_of_iff (a = b) (by simp)
  | .ok _, .error _ => isFalse (by simp)
  | .error _, .ok _ => isFalse (by simp)
  | .error a, .error b => decidable_of_iff (a = b) (by simp)

/-! ## Execution engine data model (src/execution_engine/models.py) -/

inductive ActionType where
  | HOLD
  | SWAP
  | TRANSFER
deriving DecidableEq, Repr

structure CapitalExposure where
  asset_code : String
  quantity : ℚ
deriving DecidableEq, Repr

structure CapitalState where
  snapshot_id : String
  exposures : List CapitalExposure
  notes : List String
deriving DecidableEq, Repr

structure ExecutionIntent where
  action_type : ActionType
  from_asset : String
  to_asset : String
  amount : ℚ
  notes : List String
deriving DecidableEq, Repr

structure SignatureRequirement where
  signer_reference : String
  purpose : String
deriving DecidableEq, Repr

structure ExecutionStep where
  sequence : Int
  action_type : ActionType
  from_asset : String
  to_asset : String
  amount : ℚ
  rationale : String
deriving DecidableEq, Repr

/-- Field `estimated_cost` is `Option ℚ` because the Python field may hold `None`
(validate_plan explicitly checks `plan.estimated_cost is None`). -/
structure ExecutionPlan where
  intent : ExecutionIntent
  capital_state : CapitalState
  steps : List ExecutionStep
  assumptions : List String
  failure_modes : List String
  required_signatures : List SignatureRequirement
  estimated_cost : Option ℚ
deriving DecidableEq, Repr

/-! ## Errors (src/execution_engine/planner.py)

The source raises `PlanValidationError(msg)` / `UnimplementedIntentError(msg)`;
errors are identified by their message string. -/

inductive PlanError where
  | validation (msg : String)
  | unimplementedIntent (msg : String)
deriving DecidableEq, Repr

/-- The spec's CapitalConservationError: the validation error raised at
`planner.py:154`. -/
def capitalConservationError : PlanError := .validation "Capital is not conserved."

/-- The spec's NonDeterministicOrderError for step ordering: the validation
error raised at `planner.py:129`. -/
def stepOrderError : PlanError := .validation "Steps must be ordered by sequence."

/-- The spec's InformationLeakageError: the validation error raised at
`planner.py:172`. -/
def informationLeakageError : PlanError := .validation "Plan contains forbidden execution knowledge."

/-! ## Validator helpers (src/execution_engine/planner.py) -/

/-- Embeds `_validate_steps` (planner.py:104-119).  The Python
`isinstance(step.action_type, ActionType)` guard is enforced by typing in the
embedding (`ActionType` is a closed inductive), so it cannot fail here. -/
def _validate_steps : List ExecutionStep → Except PlanError Unit
  | [] => .ok ()
  | step :: rest => do
    if step.rationale = "" then
      throw (.validation "Step rationale must be non-empty.")
    if step.action_type = .HOLD then
      if step.from_asset ≠ step.to_asset then
        throw (.validation "HOLD steps must keep the same asset.")
      if step.amount ≠ 0 then
        throw (.validation "HOLD steps must not move capital.")
    else
      if step.from_asset = step.to_asset then
        throw (.validation "from_asset must differ from to_asset.")
      if step.amount ≤ 0 then
        throw (.validation "Step amount must be positive.")
    _validate_steps rest

/-- Lexicographic `≤` on character lists by code point: exactly Python's
string comparison. -/
def charListLe : List Char → List Char → Bool
  | [], _ => true
  | _ :: _, [] => false
  | a :: as, b :: bs => if a = b then charListLe as bs else decide (a.toNat < b.toNat)

/-- Python's `s <= t` on strings. -/
def strLe (a b : String) : Bool := charListLe a.data b.data

/-- Python's `xs == sorted(xs)`: `sorted` is a stable ascending sort, so a
list equals its own sort exactly when it is non-decreasing.  We embed the
check directly as the non-decreasing test, with an explicit boolean `≤`. -/
def _is_sorted (le : α → α → Bool) : List α → Bool
  | [] => true
  | [_] => true
  | a :: b :: rest => le a b && _is_sorted le (b :: rest)

/-- Embeds `_validate_deterministic_order` (planner.py:122-133). -/
def _validate_deterministic_order (steps : List ExecutionStep)
    (assumptions failure_modes : List String) : Except PlanError Unit := do
  if ¬ _is_sorted (fun a b : ℤ => decide (a ≤ b)) (steps.map (·.sequence)) then
    throw (.validation "Steps must be ordered by sequence.")
  if ¬ _is_sorted strLe assumptions then
    throw (.validation "Assumptions must be deterministically ordered.")
  if ¬ _is_sorted strLe failure_modes then
    throw (.validation "Failure modes must be deterministically ordered.")

/-- Embeds `_derive_required_signatures` (planner.py:194-207). -/
def _derive_required_signatures (steps : List ExecutionStep) : List SignatureRequirement :=
  (steps.filter (fun s => s.action_type ≠ .HOLD)).map
    (fun s => { signer_reference := "primary", purpose := "authorize step " ++ toString s.sequence })

/-- Embeds `_validate_signatures` (planner.py:136-146). -/
def _validate_signatures (steps : List ExecutionStep)
    (required_signatures : List SignatureRequirement) : Except PlanError Unit := do
  let derived := _derive_required_signatures steps
  if derived ≠ [] ∧ required_signatures = [] then
    throw (.validation "Required signatures missing for ownership changes.")
  if derived = [] ∧ required_signatures ≠ [] then
    throw (.validation "HOLD plans must not require signatures.")
  if derived ≠ required_signatures then
    throw (.validation "Required signatures must be derived from steps.")

/-- One `deltas[asset] = deltas.get(asset, 0.0) + change` update on an
insertion-ordered association list (Python dict). -/
def _upd_delta : List (String × ℚ) → String → ℚ → List (String × ℚ)
  | [], asset, change => [(asset, change)]
  | (k, v) :: rest, asset, change =>
    if k = asset then (k, v + change) :: rest else (k, v) :: _upd_delta rest asset change

/-- Embeds `_apply_steps` (planner.py:157-164). -/
def _apply_steps (steps : List ExecutionStep) : List (String × ℚ) :=
  steps.foldl
    (fun deltas step =>
      if step.action_type = .HOLD then deltas
      else _upd_delta (_upd_delta deltas step.from_asset (-step.amount)) step.to_asset step.amount)
    []

/-- Kernel-computable floor of a rational (numerator and denominator are in
lowest terms, so floor is the floor division of `num` by `den`). -/
def ratFloor (q : ℚ) : ℤ := q.num.fdiv (q.den : ℤ)

/-- Round-half-to-even to the nearest integer (the rounding Python's builtin
`round` uses). -/
def roundHalfEven (q : ℚ) : ℤ :=
  let f : ℤ := ratFloor q
  let r : ℚ := q - (f : ℚ)
  if r < 1/2 then f
  else if 1/2 < r then f + 1
  else if f % 2 = 0 then f else f + 1

/-- Python's `round(x, 12)` modelled exactly over `ℚ`. -/
def round12 (q : ℚ) : ℚ := (roundHalfEven (q * 10 ^ 12) : ℚ) / 10 ^ 12

/-- Sum of the capital-state exposure quantities (`total_before`). -/
def totalBefore (plan : ExecutionPlan) : ℚ :=
  (plan.capital_state.exposures.map (·.quantity)).sum

/-- Net delta of the plan's steps: `sum(deltas.values())`. -/
def deltaSum (plan : ExecutionPlan) : ℚ :=
  ((_apply_steps plan.steps).map (·.2)).sum

/-- Embeds `_validate_capital_conservation` (planner.py:149-154), with the
already-checked-present `estimated_cost` passed explicitly. -/
def _validate_capital_conservation (plan : ExecutionPlan) (cost : ℚ) : Except PlanError Unit :=
  if round12 (totalBefore plan - cost) ≠ round12 (totalBefore plan + deltaSum plan) then
    throw (.validation "Capital is not conserved.")
  else .ok ()

/-- Python `str.lower()` restricted to ASCII: every string literal this repository
puts into a plan is ASCII, where Python's full Unicode lowering agrees with
ASCII lowering. -/
def pyLower (s : String) : String :=
  String.mk (s.data.map fun c =>
    if 'A' ≤ c ∧ c ≤ 'Z' then Char.ofNat (c.toNat + 32) else c)

/-- Python's `token in value` substring test. -/
def strContains (value token : String) : Bool := decide (token.data <:+: value.data)

/-- The forbidden execution-layer tokens (planner.py:168). -/
def forbiddenTokens : List String :=
  ["chain", "gas", "gwei", "wei", "protocol", "wallet", "address", "0x"]

/-- Whether a single plan string trips the information boundary:
`any(token in value.lower() for token in forbidden)`. -/
def containsForbiddenToken (value : String) : Bool :=
  forbiddenTokens.any fun token => strContains (pyLower value) token

/-- Embeds `_iter_plan_strings` (planner.py:175-191). -/
def _iter_plan_strings (plan : ExecutionPlan) : List String :=
  [plan.intent.from_asset, plan.intent.to_asset]
    ++ plan.intent.notes
    ++ [plan.capital_state.snapshot_id]
    ++ plan.capital_state.notes
    ++ plan.capital_state.exposures.map (·.asset_code)
    ++ plan.steps.flatMap (fun s => [s.from_asset, s.to_asset, s.rationale])
    ++ plan.assumptions
    ++ plan.failure_modes
    ++ plan.required_signatures.flatMap (fun r => [r.signer_reference, r.purpose])

/-- Embeds `_validate_no_hidden_execution_knowledge` (planner.py:167-172). -/
def _validate_no_hidden_execution_knowledge (plan : ExecutionPlan) : Except PlanError Unit :=
  if (_iter_plan_strings plan).any containsForbiddenToken then
    throw (.validation "Plan contains forbidden execution knowledge.")
  else .ok ()

/-- Embeds `validate_plan` (planner.py:87-101). -/
def validate_plan (plan : ExecutionPlan) : Except PlanError Unit := do
  if plan.steps = [] then
    throw (.validation "Plan must include at least one step.")
  if plan.assumptions = [] then
    throw (.validation "Plan must include assumptions.")
  if plan.failure_modes = [] then
    throw (.validation "Plan must include failure modes.")
  match plan.estimated_cost with
  | none => throw (.validation "Plan must include an estimated cost.")
  | some cost =>
    _validate_steps plan.steps
    _validate_deterministic_order plan.steps plan.assumptions plan.failure_modes
    _validate_signatures plan.steps plan.required_signatures
    _validate_capital_conservation plan cost
    _validate_no_hidden_execution_knowledge plan

/-- Ordered insertion for `sortedBy`. -/
def insertSorted (le : α → α → Bool) (a : α) : List α → List α
  | [] => [a]
  | b :: l => if le a b then a :: b :: l else b :: insertSorted le a l

/-- Python's `sorted`: an ascending comparison sort.  The planner only sorts
lists with pairwise-distinct keys, where every correct sort produces the same
output, so insertion sort is a faithful model. -/
def sortedBy (le : α → α → Bool) : List α → List α
  | [] => []
  | a :: l => insertSorted le a (sortedBy le l)

/-- Python `sorted(values)` over strings (planner.py:210-211). -/
def _ordered_strings (values : List String) : List String :=
  sortedBy strLe values

/-- Python `sorted(steps, key=lambda step: step.sequence)` (planner.py:214-215). -/
def _ordered_steps (steps : List ExecutionStep) : List ExecutionStep :=
  sortedBy (fun a b => decide (a.sequence ≤ b.sequence)) steps

/-- Embeds `ExecutionPlanner.plan` (planner.py:26-84).  `floatStr` stands for
Python's `str(float)` used when formatting the SWAP/TRANSFER rationale; no
claim depends on its output.  The `isinstance(intent.action_type, ActionType)`
guard and the final `else` branch (`UnimplementedIntentError`) are
unreachable in the embedding because `ActionType` is a closed inductive. -/
def ExecutionPlanner.plan (floatStr : ℚ → String) (intent : ExecutionIntent)
    (capital_state : CapitalState) : Except PlanError ExecutionPlan := do
  let (steps, assumptions, failure_modes) :=
    match intent.action_type with
    | .HOLD =>
      ([ { sequence := 1, action_type := .HOLD, from_asset := intent.from_asset,
           to_asset := intent.from_asset, amount := 0,
           rationale := "Hold position; no execution required." } ],
       [ "Hold intent produces no execution steps beyond acknowledgement.",
         "Capital state is a snapshot and may be stale." ],
       [ "Intent rejected by policy gate." ])
    | _ =>
      let rationale :=
        (match intent.action_type with | .SWAP => "SWAP" | .TRANSFER => "TRANSFER" | .HOLD => "HOLD")
          ++ " " ++ floatStr intent.amount ++ " " ++ intent.from_asset
          ++ " to " ++ intent.to_asset ++ "."
      ([ { sequence := 1, action_type := intent.action_type,
           from_asset := intent.from_asset, to_asset := intent.to_asset,
           amount := intent.amount, rationale := rationale } ],
       [ "No fees, slippage, or taxes included.",
         "Execution venues and routing are outside this engine.",
         "Capital state is a snapshot and may be stale." ],
       [ "Insufficient balance for requested quantity.",
         "Required signer unavailable or rejects the request." ])
  let plan : ExecutionPlan :=
    { intent := intent
      capital_state := capital_state
      steps := _ordered_steps steps
      assumptions := _ordered_strings assumptions
      failure_modes := _ordered_strings failure_modes
      required_signatures := _derive_required_signatures steps
      estimated_cost := some 0 }
  validate_plan plan
  pure plan

/-! ## Execution controller (src/execution_controller/) -/

/-- Embeds `ExecutionMode` (modes.py). -/
inductive ExecutionMode where
  | SAFE
  | MANUAL
  | GUARDED
deriving DecidableEq, Repr

/-- Embeds `ExecutionDecision` (modes.py). -/
structure ExecutionDecision where
  step_sequence : Int
  allowed : Bool
  reason : String
deriving DecidableEq, Repr

/-- Embeds `GuardPolicy` (policy.py). -/
structure GuardPolicy where
  allowed_action_types : List ActionType
  allowed_assets : Option (List String)
deriving DecidableEq, Repr

/-- Embeds `GuardPolicy.validate_step` (policy.py:14-26). -/
def GuardPolicy.validate_step (p : GuardPolicy) (step : ExecutionStep) : List String :=
  (if step.action_type ∉ p.allowed_action_types then ["Action type not allowed."] else [])
    ++ (match p.allowed_assets with
        | none => []
        | some allowed =>
          (if step.from_asset ∉ allowed then ["from_asset not allowed."] else [])
            ++ (if step.to_asset ∉ allowed then ["to_asset not allowed."] else []))

/-- Embeds `GuardPolicy.validate_steps` (policy.py:28-32). -/
def GuardPolicy.validate_steps (p : GuardPolicy) (steps : List ExecutionStep) : List String :=
  steps.flatMap p.validate_step

/-- Controller errors (controller.py:12-21), identified by class and message. -/
inductive CtrlError where
  | executionBlocked (msg : String)
  | modeTransition (msg : String)
  | policyViolation (msg : String)
deriving DecidableEq, Repr

/-- The state of an `ExecutionController` instance (controller.py:27-30). -/
structure ControllerState where
  mode : ExecutionMode
  armed : Bool
  policy : Option GuardPolicy
deriving DecidableEq, Repr

/-- Embeds `ExecutionController.__init__` (controller.py:27-30). -/
def ControllerState.initial : ControllerState :=
  { mode := .SAFE, armed := false, policy := none }

/-- Embeds `arm` (controller.py:40-41). -/
def ControllerState.arm (s : ControllerState) : ControllerState := { s with armed := true }

/-- Embeds `disarm` (controller.py:43-44). -/
def ControllerState.disarm (s : ControllerState) : ControllerState := { s with armed := false }

/-- Embeds `set_mode` (controller.py:46-57).  On an exception the Python object is
left unmodified, so the result pairs the post-call state with the raised
error, the state being unchanged whenever the error is `some`. -/
def ControllerState.set_mode (s : ControllerState) (mode : ExecutionMode)
    (policy : Option GuardPolicy) : ControllerState × Option CtrlError :=
  if mode ≠ .SAFE ∧ s.mode ≠ .SAFE then
    (s, some (.modeTransition "Mode escalation must pass through SAFE."))
  else if mode = .GUARDED ∧ policy = none then
    (s, some (.policyViolation "Guarded mode requires an explicit policy."))
  else if mode ≠ .GUARDED ∧ policy ≠ none then
    (s, some (.modeTransition "Policies may only be set in GUARDED mode."))
  else
    ({ s with mode := mode, policy := if mode = .GUARDED then policy else none }, none)

/-- Errors `evaluate_plan` can surface: the re-validation error or a
controller error. -/
inductive EvalError where
  | plan (e : PlanError)
  | ctrl (e : CtrlError)
deriving DecidableEq, Repr

/-- The loop of `_evaluate_manual` (controller.py:88-100).  The first
component is the trace of steps on which `confirm_step` was invoked, in call
order; the loop stops at the first rejection. -/
def _evaluate_manual_loop (confirm : ExecutionStep → Bool) :
    List ExecutionStep → List ExecutionStep × Except CtrlError (List ExecutionDecision)
  | [] => ([], .ok [])
  | step :: rest =>
    if confirm step then
      let (trace, r) := _evaluate_manual_loop confirm rest
      (step :: trace,
       r.map (fun ds => { step_sequence := step.sequence, allowed := true,
                          reason := "Confirmed manually." } :: ds))
    else ([step], .error (.executionBlocked "Manual confirmation rejected."))

/-- Embeds `_evaluate_manual` (controller.py:80-100). -/
def _evaluate_manual (confirm : Option (ExecutionStep → Bool)) (steps : List ExecutionStep) :
    List ExecutionStep × Except CtrlError (List ExecutionDecision) :=
  match confirm with
  | none => ([], .error (.executionBlocked "Manual mode requires per-step confirmation."))
  | some f => _evaluate_manual_loop f steps

/-- Embeds `_evaluate_guarded` (controller.py:102-119). -/
def _evaluate_guarded (policy : Option GuardPolicy) (steps : List ExecutionStep) :
    Except CtrlError (List ExecutionDecision) :=
  match policy with
  | none => .error (.policyViolation "Guarded mode requires a policy.")
  | some p =>
    let violations := p.validate_steps steps
    if violations ≠ [] then
      .error (.policyViolation ("Policy violation: " ++ String.intercalate ", " violations))
    else
      .ok (steps.map fun step =>
        { step_sequence := step.sequence, allowed := true, reason := "Guarded policy passed." })

/-- Embeds `evaluate_plan` (controller.py:59-78).  The first component is the trace
of `confirm_step` invocations; the final `raise ExecutionBlockedError
("Unknown execution mode.")` is unreachable because `ExecutionMode` is a
closed inductive.  The method never mutates the controller. -/
def ControllerState.evaluate_plan (s : ControllerState) (plan : ExecutionPlan)
    (confirm : Option (ExecutionStep → Bool)) :
    List ExecutionStep × Except EvalError (List ExecutionDecision) :=
  match validate_plan plan with
  | .error e => ([], .error (.plan e))
  | .ok _ =>
    if s.armed = false then
      ([], .error (.ctrl (.executionBlocked "Execution is not armed.")))
    else match s.mode with
    | .SAFE => ([], .error (.ctrl (.executionBlocked "SAFE mode blocks execution.")))
    | .MANUAL =>
      let (trace, r) := _evaluate_manual confirm plan.steps
      (trace, r.mapError .ctrl)
    | .GUARDED => ([], (_evaluate_guarded s.policy plan.steps).mapError .ctrl)

/-! ## Wallet core (src/wallet_core/)

Bytes are modelled as `List Nat` with each element `< 256`.  The SHA-256 /
HMAC-SHA256 / PBKDF2 primitives are external library calls
(`hashlib`/`hmac`); every custody claim is a control-flow property that holds
for any primitive with SHA-256's output shape, so the primitives are
parameters of the embedding. -/

/-- The cryptographic primitives `signer.py` obtains from `hashlib`/`hmac`:
`hmacSha256 key message`, `pbkdf2Sha256 password salt iterations dklen`, and
plain `sha256 data`. -/
structure CryptoPrims where
  hmacSha256 : List Nat → List Nat → List Nat
  pbkdf2Sha256 : List Nat → List Nat → Nat → Nat → List Nat
  sha256 : List Nat → List Nat

/-- The standard base64 alphabet (RFC 4648), as used by `base64.b64encode`. -/
def b64Alphabet : List Char :=
  "ABCDEFGHIJKLMNOPQRSTUVWXYZabcdefghijklmnopqrstuvwxyz0123456789+/".data

/-- The base64 character of a 6-bit value. -/
def b64char (n : Nat) : Char := b64Alphabet.getD n '?'

/-- The 6-bit value of a base64 character. -/
def b64val (c : Char) : Nat := b64Alphabet.indexOf c

/-- Models `base64.b64encode` on raw bytes, producing the encoded characters:
3-byte groups become 4 alphabet characters, a 1- or 2-byte tail is padded
with `=`. -/
def b64encodeBytes : List Nat → List Char
  | [] => []
  | [a] => [b64char (a / 4), b64char (a % 4 * 16), '=', '=']
  | [a, b] => [b64char (a / 4), b64char (a % 4 * 16 + b / 16), b64char (b % 16 * 4), '=']
  | a :: b :: c :: rest =>
    b64char (a / 4) :: b64char (a % 4 * 16 + b / 16) :: b64char (b % 16 * 4 + c / 64)
      :: b64char (c % 64) :: b64encodeBytes rest

/-- Models `base64.b64decode` on the output shape produced by `b64encodeBytes`
(4-character groups, `=`-padded tail). -/
def b64decodeChars : List Char → List Nat
  | c1 :: c2 :: c3 :: c4 :: rest =>
    if c3 = '=' then [b64val c1 * 4 + b64val c2 / 16]
    else if c4 = '=' then
      [b64val c1 * 4 + b64val c2 / 16, b64val c2 % 16 * 16 + b64val c3 / 4]
    else
      (b64val c1 * 4 + b64val c2 / 16) :: (b64val c2 % 16 * 16 + b64val c3 / 4)
        :: (b64val c3 % 4 * 64 + b64val c4) :: b64decodeChars rest
  | _ => []

/-- Embeds `_b64encode` (signer.py:174-175): bytes to an ASCII string. -/
def _b64encode (value : List Nat) : String := String.mk (b64encodeBytes value)

/-- Embeds `_b64decode` (signer.py:178-179): an ASCII string back to bytes. -/
def _b64decode (value : String) : List Nat := b64decodeChars value.data

/-- Embeds `EncryptedPayload` (models.py:24-29): all four fields are base64 strings. -/
structure EncryptedPayload where
  ciphertext : String
  salt : String
  nonce : String
  mac : String
deriving DecidableEq, Repr

/-- Wallet-core errors, identified by Python class and message:
`ValueError` from `decrypt` (the spec's AuthenticationError), `RuntimeError`
from `_require_unlocked` (the spec's LockedWalletError), `KeyError` from the
keystore. -/
inductive WalletError where
  | authentication (msg : String)
  | locked (msg : String)
  | keyError (msg : String)
deriving DecidableEq, Repr

/-- Models `counter.to_bytes(4, "big")` (signer.py:75). -/
def be4 (n : Nat) : List Nat :=
  [n / 2 ^ 24 % 256, n / 2 ^ 16 % 256, n / 2 ^ 8 % 256, n % 256]

/-- Embeds `PassphraseEncryptor._derive_key` (signer.py:62-69). -/
def _derive_key (prims : CryptoPrims) (iterations : Nat) (passphrase salt nonce : List Nat) :
    List Nat :=
  prims.pbkdf2Sha256 passphrase (salt ++ nonce) iterations 32

/-- Embeds `PassphraseEncryptor._keystream` (signer.py:71-78): the Python loop
appends 32-byte HMAC blocks for counter 0, 1, ... until at least `length`
bytes are accumulated, then truncates; with SHA-256's 32-byte digest that is
exactly `⌈length / 32⌉` blocks. -/
def _keystream (prims : CryptoPrims) (key nonce : List Nat) (length : Nat) : List Nat :=
  (((List.range ((length + 31) / 32)).map
      (fun counter => prims.hmacSha256 key (nonce ++ be4 counter))).flatten).take length

/-- Embeds `PassphraseEncryptor.encrypt` (signer.py:36-48).  `salt` and `nonce` are
the 16-byte draws of the salt/nonce providers, passed explicitly.
`passphrase` is the UTF-8 byte encoding of the passphrase string. -/
def PassphraseEncryptor.encrypt (prims : CryptoPrims) (iterations : Nat)
    (plaintext passphrase salt nonce : List Nat) : EncryptedPayload :=
  let key := _derive_key prims iterations passphrase salt nonce
  let keystream := _keystream prims key nonce plaintext.length
  let ciphertext := List.zipWith (fun a b => a ^^^ b) plaintext keystream
  let mac := prims.hmacSha256 key ciphertext
  { ciphertext := _b64encode ciphertext
    salt := _b64encode salt
    nonce := _b64encode nonce
    mac := _b64encode mac }

/-- Embeds `PassphraseEncryptor.decrypt` (signer.py:50-60).  The MAC is recomputed
and compared (`hmac.compare_digest`, a constant-time equality) before any
keystream or plaintext is produced; on mismatch the `ValueError` is raised
and no plaintext exists. -/
def PassphraseEncryptor.decrypt (prims : CryptoPrims) (iterations : Nat)
    (payload : EncryptedPayload) (passphrase : List Nat) : Except WalletError (List Nat) :=
  let salt := _b64decode payload.salt
  let nonce := _b64decode payload.nonce
  let ciphertext := _b64decode payload.ciphertext
  let expected_mac := _b64decode payload.mac
  let key := _derive_key prims iterations passphrase salt nonce
  let actual_mac := prims.hmacSha256 key ciphertext
  if actual_mac ≠ expected_mac then
    .error (.authentication "Invalid passphrase or corrupted payload.")
  else
    let keystream := _keystream prims key nonce ciphertext.length
    .ok (List.zipWith (fun a b => a ^^^ b) ciphertext keystream)

/-! ### Keystore and WalletCore state (keystore.py, signer.py) -/

structure WalletMetadata where
  wallet_id : String
  label : String
  created_at : String
deriving DecidableEq, Repr

structure Account where
  account_id : String
  label : String
  derivation_path : String
deriving DecidableEq, Repr

structure WalletRecord where
  metadata : WalletMetadata
  accounts : List Account
  encrypted_seed : EncryptedPayload
deriving DecidableEq, Repr

/-- Embeds `KeyStore.store`: both `FileKeyStore.store` and the tests' in-memory
store upsert by `metadata.wallet_id`, keeping insertion order. -/
def storeRecord : List WalletRecord → WalletRecord → List WalletRecord
  | [], record => [record]
  | item :: rest, record =>
    if item.metadata.wallet_id = record.metadata.wallet_id then record :: rest
    else item :: storeRecord rest record

/-- Embeds `KeyStore.load` (keystore.py:30-34): first record with the wallet id,
else `KeyError`. -/
def loadRecord (records : List WalletRecord) (wallet_id : String) :
    Except WalletError WalletRecord :=
  match records.find? (fun r => r.metadata.wallet_id = wallet_id) with
  | some record => .ok record
  | none => .error (.keyError ("Unknown wallet_id: " ++ wallet_id))

/-- Hex digits. -/
def hexChar (n : Nat) : Char := "0123456789abcdef".data.getD n '?'

/-- Models `hashlib.sha256(x).hexdigest()`: two lowercase hex digits per byte. -/
def hexdigest (digest : List Nat) : String :=
  String.mk (digest.flatMap fun b => [hexChar (b / 16), hexChar (b % 16)])

/-- Embeds `_derive_wallet_id` (signer.py:186-187): `sha256(seed).hexdigest()[:16]`. -/
def _derive_wallet_id (prims : CryptoPrims) (seed : List Nat) : String :=
  String.mk ((hexdigest (prims.sha256 seed)).data.take 16)

/-- Embeds `WalletStatus` (signer.py:81-84). -/
structure WalletStatus where
  wallet_id : String
  unlocked : Bool
deriving DecidableEq, Repr

/-- The mutable state of a `WalletCore` instance (signer.py:87-102): the
keystore contents plus the in-memory unlocked-session fields. -/
structure WalletCoreState where
  keystore : List WalletRecord
  unlocked_wallet_id : Option String
  unlocked_seed : Option (List Nat)
deriving DecidableEq, Repr

/-- Embeds `WalletCore.create_wallet` (signer.py:104-116).  The entropy draw
(`seed`), the salt/nonce draws inside `encrypt`, and the timestamp are the
provider outputs, passed explicitly. -/
def WalletCore.create_wallet (prims : CryptoPrims) (iterations : Nat)
    (st : WalletCoreState) (label : String) (passphrase : List Nat)
    (seed salt nonce : List Nat) (created_at : String) :
    WalletCoreState × WalletMetadata :=
  let wallet_id := _derive_wallet_id prims seed
  let encrypted_seed := PassphraseEncryptor.encrypt prims iterations seed passphrase salt nonce
  let metadata : WalletMetadata := { wallet_id := wallet_id, label := label, created_at := created_at }
  let record : WalletRecord := { metadata := metadata, accounts := [], encrypted_seed := encrypted_seed }
  ({ st with keystore := storeRecord st.keystore record }, metadata)

/-- Embeds `WalletCore.unlock` (signer.py:141-146).  On a load or decrypt failure
the exception propagates before either session field is assigned, so the
state is returned unchanged alongside the error. -/
def WalletCore.unlock (prims : CryptoPrims) (iterations : Nat)
    (st : WalletCoreState) (wallet_id : String) (passphrase : List Nat) :
    WalletCoreState × Except WalletError WalletStatus :=
  match loadRecord st.keystore wallet_id with
  | .error e => (st, .error e)
  | .ok record =>
    match PassphraseEncryptor.decrypt prims iterations record.encrypted_seed passphrase with
    | .error e => (st, .error e)
    | .ok seed =>
      ({ st with unlocked_seed := some seed, unlocked_wallet_id := some wallet_id },
       .ok { wallet_id := wallet_id, unlocked := true })

/-- Embeds `WalletCore.lock` (signer.py:148-150). -/
def WalletCore.lock (st : WalletCoreState) : WalletCoreState :=
  { st with unlocked_seed := none, unlocked_wallet_id := none }

/-- Embeds `WalletCore._require_unlocked` (signer.py:168-171). -/
def WalletCore._require_unlocked (st : WalletCoreState) (wallet_id : String) :
    Except WalletError (List Nat) :=
  match st.unlocked_seed with
  | none => .error (.locked "Wallet is locked.")
  | some seed =>
    if st.unlocked_wallet_id ≠ some wallet_id then .error (.locked "Wallet is locked.")
    else .ok seed

/-- Modelled from the spec: a deterministic, human-copyable encoding of the
seed bytes (the concrete word/number encoding is absent from `src/`). -/
def _recovery_phrase_encoding (seed : List Nat) : String :=
  String.intercalate "-" (seed.map fun b => toString b)

/-- Modelled from the spec: `WalletCore.export_recovery_phrase(wallet_id)` is
called by `wallet_core/tests`, `operator_cli/cli.py` and `web/app.py` but its
definition is missing from `src/wallet_core/signer.py`.  Per spec §4.1 it
"requires unlock; deterministic, human-copyable encoding of the seed; must
never be persisted or logged": it reads the unlocked seed through the same
`_require_unlocked` gate as `sign`/`get_public_key`, returns a pure encoding
of the seed, and performs no keystore write. -/
def WalletCore.export_recovery_phrase (st : WalletCoreState) (wallet_id : String) :
    WalletCoreState × Except WalletError String :=
  match WalletCore._require_unlocked st wallet_id with
  | .error e => (st, .error e)
  | .ok seed => (st, .ok (_recovery_phrase_encoding seed))

/-! ## Concrete inputs used by witnesses and counterexamples -/

/-- A well-formed one-step SWAP plan that passes every validation check. -/
def validPlan : ExecutionPlan :=
  { intent := { action_type := .SWAP, from_asset := "AAA", to_asset := "BBB",
                amount := 1, notes := [] }
    capital_state := { snapshot_id := "snap", exposures := [{ asset_code := "AAA", quantity := 2 }],
                       notes := [] }
    steps := [{ sequence := 1, action_type := .SWAP, from_asset := "AAA", to_asset := "BBB",
                amount := 1, rationale := "move one unit" }]
    assumptions := ["a"]
    failure_modes := ["f"]
    required_signatures := [{ signer_reference := "primary", purpose := "authorize step 1" }]
    estimated_cost := some 0 }

/-- A HOLD plan whose estimated cost is `-2⁻⁴⁰`: the conservation difference
is `2⁻⁴⁰ < 10⁻¹²` (and `2⁻⁴⁰` is exactly representable as a Python float),
yet `round(·, 12)` separates the two sides. -/
def planTinyCost : ExecutionPlan :=
  { intent := { action_type := .HOLD, from_asset := "AAA", to_asset := "AAA",
                amount := 0, notes := [] }
    capital_state := { snapshot_id := "snap", exposures := [], notes := [] }
    steps := [{ sequence := 1, action_type := .HOLD, from_asset := "AAA", to_asset := "AAA",
                amount := 0, rationale := "hold" }]
    assumptions := ["a"]
    failure_modes := ["f"]
    required_signatures := []
    estimated_cost := some (-(1 / 2 ^ 40)) }

/-- A plan whose two steps carry the same sequence number 1. -/
def planDupSeq : ExecutionPlan :=
  { intent := { action_type := .SWAP, from_asset := "AAA", to_asset := "BBB",
                amount := 1, notes := [] }
    capital_state := { snapshot_id := "snap", exposures := [{ asset_code := "XXX", quantity := 1 }],
                       notes := [] }
    steps := [{ sequence := 1, action_type := .SWAP, from_asset := "AAA", to_asset := "BBB",
                amount := 1, rationale := "r1" },
              { sequence := 1, action_type := .SWAP, from_asset := "BBB", to_asset := "AAA",
                amount := 1, rationale := "r2" }]
    assumptions := ["a"]
    failure_modes := ["f"]
    required_signatures := [{ signer_reference := "primary", purpose := "authorize step 1" },
                            { signer_reference := "primary", purpose := "authorize step 1" }]
    estimated_cost := some 0 }

/-- A plan whose single step carries sequence number 0. -/
def planSeqZero : ExecutionPlan :=
  { intent := { action_type := .SWAP, from_asset := "AAA", to_asset := "BBB",
                amount := 1, notes := [] }
    capital_state := { snapshot_id := "snap", exposures := [{ asset_code := "XXX", quantity := 1 }],
                       notes := [] }
    steps := [{ sequence := 0, action_type := .SWAP, from_asset := "AAA", to_asset := "BBB",
                amount := 1, rationale := "r1" }]
    assumptions := ["a"]
    failure_modes := ["f"]
    required_signatures := [{ signer_reference := "primary", purpose := "authorize step 0" }]
    estimated_cost := some 0 }

/-- Copy of `validPlan` with an assumption containing "gAs"; every other check
passes. -/
def planGasAssumption : ExecutionPlan :=
  { validPlan with assumptions := ["uses gAs pricing"] }

def planUnsorted : ExecutionPlan :=
  { intent := { action_type := .SWAP, from_asset := "AAA", to_asset := "BBB",
                amount := 1, notes := [] }
    capital_state := { snapshot_id := "snap", exposures := [{ asset_code := "XXX", quantity := 1 }],
                       notes := [] }
    steps := [{ sequence := 2, action_type := .SWAP, from_asset := "AAA", to_asset := "BBB",
                amount := 1, rationale := "r1" },
              { sequence := 1, action_type := .SWAP, from_asset := "BBB", to_asset := "AAA",
                amount := 1, rationale := "r2" }]
    assumptions := ["a"]
    failure_modes := ["f"]
    required_signatures := [{ signer_reference := "primary", purpose := "authorize step 2" },
                            { signer_reference := "primary", purpose := "authorize step 1" }]
    estimated_cost := some 0 }

def plannerExampleIntent : ExecutionIntent :=
  { action_type := .SWAP, from_asset := "BTC", to_asset := "USD", amount := 3/2, notes := [] }

def plannerExampleState : CapitalState :=
  { snapshot_id := "snap-001", exposures := [{ asset_code := "BTC", quantity := 2 }], notes := [] }

def plannerExamplePlan : ExecutionPlan :=
  (ExecutionPlanner.plan (fun _ => "1.5") plannerExampleIntent plannerExampleState).toOption.getD validPlan

/-- Controller states and policy used by the controller witnesses. -/
def manualArmed : ControllerState := { mode := .MANUAL, armed := true, policy := none }

def guardPolicyEx : GuardPolicy :=
  { allowed_action_types := [.SWAP], allowed_assets := some ["AAA", "BBB"] }

def guardedArmed : ControllerState :=
  { mode := .GUARDED, armed := true, policy := some guardPolicyEx }

/-- Concrete crypto primitives and wallet states used by the custody witnesses. -/
def prims0 : CryptoPrims :=
  { hmacSha256 := fun _ _ => List.replicate 32 7
    pbkdf2Sha256 := fun _ _ _ _ => List.replicate 32 3
    sha256 := fun _ => List.replicate 32 5 }

def badPayload : EncryptedPayload := { ciphertext := "", salt := "", nonce := "", mac := "" }

def badRecord : WalletRecord :=
  { metadata := { wallet_id := "w1", label := "L", created_at := "t" }
    accounts := []
    encrypted_seed := badPayload }

def badState : WalletCoreState :=
  { keystore := [badRecord], unlocked_wallet_id := none, unlocked_seed := none }

def unlockedState : WalletCoreState :=
  { keystore := [], unlocked_wallet_id := some "w1", unlocked_seed := some [1, 2, 3] }

def emptyWalletState : WalletCoreState :=
  { keystore := [], unlocked_wallet_id := none, unlocked_seed := none }

def seedEx : List Nat := List.replicate 32 1

def createdEx : WalletCoreState × WalletMetadata :=
  WalletCore.create_wallet prims0 1 emptyWalletState "L" [9] seedEx [4] [5] "t"

/-! ## Proof layer -/

attribute [local semireducible] Rat.add Rat.mul Rat.sub Rat.inv

theorem validate_plan_unfold (plan : ExecutionPlan) :
    validate_plan plan =
      if plan.steps = [] then .error (.validation "Plan must include at least one step.")
      else if plan.assumptions = [] then .error (.validation "Plan must include assumptions.")
      else if plan.failure_modes = [] then .error (.validation "Plan must include failure modes.")
      else match plan.estimated_cost with
      | none => .error (.validation "Plan must include an estimated cost.")
      | some cost =>
        match _validate_steps plan.steps with
        | .error e => .error e
        | .ok _ =>
          match _validate_deterministic_order plan.steps plan.assumptions plan.failure_modes with
          | .error e => .error e
          | .ok _ =>
            match _validate_signatures plan.steps plan.required_signatures with
            | .error e => .error e
            | .ok _ =>
              match _validate_capital_conservation plan cost with
              | .error e => .error e
              | .ok _ => _validate_no_hidden_execution_knowledge plan := by
  unfold validate_plan
  split_ifs <;> try rfl
  cases plan.estimated_cost with
  | none => rfl
  | some cost =>
    simp only [bind, Except.bind]
    cases _validate_steps plan.steps <;> try rfl
    cases _validate_deterministic_order plan.steps plan.assumptions plan.failure_modes <;> try rfl
    cases _validate_signatures plan.steps plan.required_signatures <;> try rfl
    cases _validate_capital_conservation plan cost <;> rfl

theorem _validate_deterministic_order_unfold (steps : List ExecutionStep)
    (assumptions failure_modes : List String) :
    _validate_deterministic_order steps assumptions failure_modes =
      if ¬ _is_sorted (fun a b : ℤ => decide (a ≤ b)) (steps.map (·.sequence)) then
        .error (.validation "Steps must be ordered by sequence.")
      else if ¬ _is_sorted strLe assumptions then
        .error (.validation "Assumptions must be deterministically ordered.")
      else if ¬ _is_sorted strLe failure_modes then
        .error (.validation "Failure modes must be deterministically ordered.")
      else .ok () := by
  unfold _validate_deterministic_order
  simp only [bind, Except.bind]
  split_ifs <;> rfl

theorem _validate_signatures_cases (steps : List ExecutionStep)
    (sigs : List SignatureRequirement) :
    _validate_signatures steps sigs = .ok () ∨
    _validate_signatures steps sigs = .error (.validation "Required signatures missing for ownership changes.") ∨
    _validate_signatures steps sigs = .error (.validation "HOLD plans must not require signatures.") ∨
    _validate_signatures steps sigs = .error (.validation "Required signatures must be derived from steps.") := by
  unfold _validate_signatures
  simp only [bind, Except.bind, pure, Except.pure, throw, throwThe, MonadExceptOf.throw]
  split_ifs <;> simp

theorem _validate_capital_conservation_cases (plan : ExecutionPlan) (cost : ℚ) :
    _validate_capital_conservation plan cost = .ok () ∨
    _validate_capital_conservation plan cost = .error capitalConservationError := by
  unfold _validate_capital_conservation
  simp only [throw, throwThe, MonadExceptOf.throw]
  split_ifs <;> simp [capitalConservationError]

theorem _validate_no_hidden_cases (plan : ExecutionPlan) :
    _validate_no_hidden_execution_knowledge plan = .ok () ∨
    _validate_no_hidden_execution_knowledge plan = .error informationLeakageError := by
  unfold _validate_no_hidden_execution_knowledge
  simp only [throw, throwThe, MonadExceptOf.throw]
  split_ifs <;> simp [informationLeakageError]

/-- C1 (amended): for a plan passing the completeness, step-shape, ordering and
signature checks, `validate_plan` raises the capital-conservation error exactly
when `round(before - estimated_cost, 12) != round(before + delta, 12)` under
Python round-half-even to 12 decimal places (not an absolute 1e-12 tolerance);
and every plan `ExecutionPlanner.plan` returns has `estimated_cost` 0 and
conserves capital exactly. -/
theorem C1_capital_conservation :
    (∀ (plan : ExecutionPlan) (cost : ℚ),
      plan.estimated_cost = some cost →
      plan.steps ≠ [] → plan.assumptions ≠ [] → plan.failure_modes ≠ [] →
      _validate_steps plan.steps = .ok () →
      _validate_deterministic_order plan.steps plan.assumptions plan.failure_modes = .ok () →
      _validate_signatures plan.steps plan.required_signatures = .ok () →
      (validate_plan plan = .error capitalConservationError ↔
        round12 (totalBefore plan - cost) ≠ round12 (totalBefore plan + deltaSum plan))) ∧
    (∀ (floatStr : ℚ → String) (intent : ExecutionIntent) (cs : CapitalState) (p : ExecutionPlan),
      ExecutionPlanner.plan floatStr intent cs = .ok p →
      p.estimated_cost = some 0 ∧ totalBefore p - 0 = totalBefore p + deltaSum p) := by
  constructor
  · intro plan cost hc h1 h2 h3 h4 h5 h6
    rw [validate_plan_unfold, if_neg h1, if_neg h2, if_neg h3]
    simp only [hc, h4, h5, h6]
    unfold _validate_capital_conservation
    split_ifs with hcond
    · simp only [throw, throwThe, MonadExceptOf.throw]
      simp [capitalConservationError, hcond]
    · simp only []
      rcases _validate_no_hidden_cases plan with hh | hh <;> rw [hh] <;>
        simp [capitalConservationError, informationLeakageError, hcond]
  · intro floatStr intent cs p h
    unfold ExecutionPlanner.plan at h
    simp only [bind, Except.bind, pure, Except.pure] at h
    cases hA : intent.action_type <;> simp only [hA] at h
    case HOLD =>
      revert h
      split
      · intro h; exact absurd h (by simp)
      · intro h
        injection h with h'
        subst h'
        refine ⟨rfl, ?_⟩
        simp [deltaSum, totalBefore, _apply_steps, _ordered_steps, sortedBy, insertSorted]
    case SWAP =>
      revert h
      split
      · intro h; exact absurd h (by simp)
      · intro h
        injection h with h'
        subst h'
        refine ⟨rfl, ?_⟩
        by_cases hft : intent.from_asset = intent.to_asset <;>
          simp [deltaSum, totalBefore, _apply_steps, _upd_delta, _ordered_steps, sortedBy,
            insertSorted, hft]
    case TRANSFER =>
      revert h
      split
      · intro h; exact absurd h (by simp)
      · intro h
        injection h with h'
        subst h'
        refine ⟨rfl, ?_⟩
        by_cases hft : intent.from_asset = intent.to_asset <;>
          simp [deltaSum, totalBefore, _apply_steps, _upd_delta, _ordered_steps, sortedBy,
            insertSorted, hft]

theorem validate_plan_ok_last_stage (plan : ExecutionPlan)
    (h : validate_plan plan = .ok ()) :
    _validate_no_hidden_execution_knowledge plan = .ok () := by
  rw [validate_plan_unfold] at h
  by_cases h1 : plan.steps = []
  · rw [if_pos h1] at h; exact absurd h (by simp)
  rw [if_neg h1] at h
  by_cases h2 : plan.assumptions = []
  · rw [if_pos h2] at h; exact absurd h (by simp)
  rw [if_neg h2] at h
  by_cases h3 : plan.failure_modes = []
  · rw [if_pos h3] at h; exact absurd h (by simp)
  rw [if_neg h3] at h
  cases hc : plan.estimated_cost with
  | none => rw [hc] at h; exact absurd h (by simp)
  | some cost =>
    simp only [hc] at h
    cases hv : _validate_steps plan.steps with
    | error e => simp [hv] at h
    | ok u =>
      simp only [hv] at h
      cases hd : _validate_deterministic_order plan.steps plan.assumptions plan.failure_modes with
      | error e => simp [hd] at h
      | ok u =>
        simp only [hd] at h
        cases hs : _validate_signatures plan.steps plan.required_signatures with
        | error e => simp [hs] at h
        | ok u =>
          simp only [hs] at h
          cases hcc : _validate_capital_conservation plan cost with
          | error e => simp [hcc] at h
          | ok u => simp only [hcc] at h; exact h

theorem _validate_deterministic_order_first (steps : List ExecutionStep)
    (assumptions failure_modes : List String) :
    (_is_sorted (fun a b : ℤ => decide (a ≤ b)) (steps.map (·.sequence)) = false →
      _validate_deterministic_order steps assumptions failure_modes = .error stepOrderError) ∧
    (_is_sorted (fun a b : ℤ => decide (a ≤ b)) (steps.map (·.sequence)) = true →
      _validate_deterministic_order steps assumptions failure_modes = .ok () ∨
        ∃ m, _validate_deterministic_order steps assumptions failure_modes = .error (.validation m)
          ∧ m ≠ "Steps must be ordered by sequence.") := by
  rw [_validate_deterministic_order_unfold]
  constructor
  · intro hs
    rw [if_pos (by simp [hs])]
    simp [stepOrderError]
  · intro hs
    rw [if_neg (by simp [hs])]
    split_ifs <;> simp

/-- C7 (amended): for a plan passing the completeness and step-shape checks,
`validate_plan` raises the step-ordering error exactly when the sequence
numbers are not non-decreasing; strictness and the `sequence ≥ 1` lower bound
are not enforced. -/
theorem C7_step_order :
    ∀ (plan : ExecutionPlan) (cost : ℚ),
      plan.estimated_cost = some cost →
      plan.steps ≠ [] → plan.assumptions ≠ [] → plan.failure_modes ≠ [] →
      _validate_steps plan.steps = .ok () →
      (validate_plan plan = .error stepOrderError ↔
        _is_sorted (fun a b : ℤ => decide (a ≤ b)) (plan.steps.map (·.sequence)) = false) := by
  intro plan cost hc h1 h2 h3 h4
  rw [validate_plan_unfold, if_neg h1, if_neg h2, if_neg h3]
  simp only [hc, h4]
  by_cases hs : _is_sorted (fun a b : ℤ => decide (a ≤ b)) (plan.steps.map (·.sequence)) = true
  · rcases (_validate_deterministic_order_first plan.steps plan.assumptions plan.failure_modes).2 hs
      with hok | ⟨m, herr, hm⟩
    · rw [hok]
      simp only [hs]
      rcases _validate_signatures_cases plan.steps plan.required_signatures with hsig | hsig | hsig | hsig
      · rw [hsig]
        rcases _validate_capital_conservation_cases plan cost with hcc | hcc
        · rw [hcc]
          rcases _validate_no_hidden_cases plan with hnh | hnh <;> rw [hnh] <;>
            simp [stepOrderError, informationLeakageError]
        · rw [hcc]; simp [stepOrderError, capitalConservationError]
      · rw [hsig]; simp [stepOrderError]
      · rw [hsig]; simp [stepOrderError]
      · rw [hsig]; simp [stepOrderError]
    · rw [herr]
      simp [stepOrderError, hs, hm]
  · have hs' : _is_sorted (fun a b : ℤ => decide (a ≤ b)) (plan.steps.map (·.sequence)) = false := by
      simpa using hs
    rw [(_validate_deterministic_order_first plan.steps plan.assumptions plan.failure_modes).1 hs']
    simp [stepOrderError, hs']

/-- C8: a plan accepted by `validate_plan` has no forbidden execution-layer
token (case-insensitive substring) in any of its strings, and whenever the
earlier checks pass and some string holds a token, `validate_plan` raises the
information-leakage error. -/
theorem C8_information_boundary :
    (∀ plan : ExecutionPlan, validate_plan plan = .ok () →
      ∀ s ∈ _iter_plan_strings plan, containsForbiddenToken s = false) ∧
    (∀ (plan : ExecutionPlan) (cost : ℚ),
      plan.estimated_cost = some cost →
      plan.steps ≠ [] → plan.assumptions ≠ [] → plan.failure_modes ≠ [] →
      _validate_steps plan.steps = .ok () →
      _validate_deterministic_order plan.steps plan.assumptions plan.failure_modes = .ok () →
      _validate_signatures plan.steps plan.required_signatures = .ok () →
      _validate_capital_conservation plan cost = .ok () →
      (∃ s ∈ _iter_plan_strings plan, containsForbiddenToken s = true) →
      validate_plan plan = .error informationLeakageError) := by
  constructor
  · intro plan h s hs
    have hstage := validate_plan_ok_last_stage plan h
    unfold _validate_no_hidden_execution_knowledge at hstage
    by_cases hany : (_iter_plan_strings plan).any containsForbiddenToken = true
    · rw [if_pos hany] at hstage
      simp [throw, throwThe, MonadExceptOf.throw] at hstage
    · have hany' : (_iter_plan_strings plan).any containsForbiddenToken = false := by
        simpa using hany
      rw [List.any_eq_false] at hany'
      simpa using hany' s hs
  · intro plan cost hc h1 h2 h3 h4 h5 h6 h7 hex
    rw [validate_plan_unfold, if_neg h1, if_neg h2, if_neg h3]
    simp only [hc, h4, h5, h6, h7]
    unfold _validate_no_hidden_execution_knowledge
    rw [if_pos]
    · simp [throw, throwThe, MonadExceptOf.throw, informationLeakageError]
    · rw [List.any_eq_true]
      rcases hex with ⟨s, hmem, htok⟩
      exact ⟨s, hmem, htok⟩

/-- C1 witness: the conservation iff at the concrete `validPlan`, and exact
conservation of a concrete planner-built plan. -/
theorem C1_witness :
    (validate_plan validPlan = .error capitalConservationError ↔
      round12 (totalBefore validPlan - 0) ≠ round12 (totalBefore validPlan + deltaSum validPlan)) ∧
    (plannerExamplePlan.estimated_cost = some 0 ∧
      totalBefore plannerExamplePlan - 0 = totalBefore plannerExamplePlan + deltaSum plannerExamplePlan) :=
  ⟨C1_capital_conservation.1 validPlan 0 (by decide) (by decide) (by decide) (by decide)
      (by decide) (by decide) (by decide),
   C1_capital_conservation.2 (fun _ => "1.5") plannerExampleIntent plannerExampleState
      plannerExamplePlan (by decide)⟩

/-- C1 counterexample: `planTinyCost` violates conservation by exactly
`2⁻⁴⁰ < 10⁻¹²`, inside the claimed 1e-12 tolerance, yet `validate_plan`
raises the capital-conservation error. -/
theorem C1_counterexample :
    planTinyCost.estimated_cost = some (-(1 / 2 ^ 40)) ∧
    validate_plan planTinyCost = .error capitalConservationError ∧
    (totalBefore planTinyCost - (-(1 / 2 ^ 40))) - (totalBefore planTinyCost + deltaSum planTinyCost)
      = 1 / 2 ^ 40 ∧
    ((1 : ℚ) / 2 ^ 40) < 1 / 10 ^ 12 := by
  refine ⟨by decide, by decide, by decide, by decide⟩

/-- C7 witness: a plan with descending sequence numbers is rejected with the
step-ordering error. -/
theorem C7_witness : validate_plan planUnsorted = .error stepOrderError :=
  (C7_step_order planUnsorted 0 (by decide) (by decide) (by decide) (by decide) (by decide)).mpr
    (by decide)

/-- C7 counterexample: a plan with two steps both numbered 1 and a plan with a
single step numbered 0 both pass `validate_plan`, contradicting the claimed
strict ascent from 1. -/
theorem C7_counterexample :
    validate_plan planDupSeq = .ok () ∧ planDupSeq.steps.map (·.sequence) = [1, 1] ∧
    validate_plan planSeqZero = .ok () ∧ planSeqZero.steps.map (·.sequence) = [0] := by
  refine ⟨by decide, by decide, by decide, by decide⟩

/-- C8 witness: a plan whose assumptions contain "gAs" is rejected with the
information-leakage error even though every other check passes. -/
theorem C8_witness : validate_plan planGasAssumption = .error informationLeakageError :=
  C8_information_boundary.2 planGasAssumption 0 (by decide) (by decide) (by decide) (by decide)
    (by decide) (by decide) (by decide) (by decide)
    ⟨"uses gAs pricing", by decide, by decide⟩

/-- C2: `evaluate_plan` re-validates the plan first (surfacing the validation
error for invalid plans); on a valid plan any unarmed state or SAFE mode yields
`ExecutionBlockedError` and zero decisions; a freshly constructed, armed
controller in SAFE mode blocks any valid plan. -/
theorem C2_fail_closed :
    (∀ (st : ControllerState) (plan : ExecutionPlan) (confirm : Option (ExecutionStep → Bool))
      (e : PlanError), validate_plan plan = .error e →
      st.evaluate_plan plan confirm = ([], .error (.plan e))) ∧
    (∀ (st : ControllerState) (plan : ExecutionPlan) (confirm : Option (ExecutionStep → Bool)),
      validate_plan plan = .ok () → (st.armed = false ∨ st.mode = .SAFE) →
      ∃ msg, st.evaluate_plan plan confirm = ([], .error (.ctrl (.executionBlocked msg)))) ∧
    (∀ (plan : ExecutionPlan) (confirm : Option (ExecutionStep → Bool)),
      validate_plan plan = .ok () →
      (ControllerState.initial.arm).evaluate_plan plan confirm =
        ([], .error (.ctrl (.executionBlocked "SAFE mode blocks execution.")))) := by
  refine ⟨?_, ?_, ?_⟩
  · intro st plan confirm e hv
    simp [ControllerState.evaluate_plan, hv]
  · intro st plan confirm hv hblock
    rcases hblock with harm | hsafe
    · exact ⟨"Execution is not armed.", by simp [ControllerState.evaluate_plan, hv, harm]⟩
    · by_cases harm : st.armed = false
      · exact ⟨"Execution is not armed.", by simp [ControllerState.evaluate_plan, hv, harm]⟩
      · have harm' : st.armed = true := by simpa using harm
        exact ⟨"SAFE mode blocks execution.",
          by simp [ControllerState.evaluate_plan, hv, harm', hsafe]⟩
  · intro plan confirm hv
    simp [ControllerState.evaluate_plan, hv, ControllerState.initial, ControllerState.arm]

/-- C3: `set_mode` admits a non-SAFE target only from SAFE; direct
MANUAL↔GUARDED transitions raise `ModeTransitionError` leaving the state
unchanged; entering GUARDED from SAFE without a policy raises
`PolicyViolationError`; a policy with a non-GUARDED target raises
`ModeTransitionError`; and no `set_mode` call changes the armed flag. -/
theorem C3_mode_state_machine :
    (∀ (st : ControllerState) (m : ExecutionMode) (p : Option GuardPolicy),
      (st.set_mode m p).2 = none → m ≠ .SAFE → st.mode = .SAFE) ∧
    (∀ (st : ControllerState) (p : Option GuardPolicy),
      (st.mode = .MANUAL → st.set_mode .GUARDED p =
        (st, some (.modeTransition "Mode escalation must pass through SAFE."))) ∧
      (st.mode = .GUARDED → st.set_mode .MANUAL p =
        (st, some (.modeTransition "Mode escalation must pass through SAFE.")))) ∧
    (∀ st : ControllerState, st.mode = .SAFE →
      st.set_mode .GUARDED none =
        (st, some (.policyViolation "Guarded mode requires an explicit policy."))) ∧
    (∀ (st : ControllerState) (m : ExecutionMode) (pol : GuardPolicy),
      m ≠ .GUARDED →
      ∃ msg, st.set_mode m (some pol) = (st, some (.modeTransition msg))) ∧
    (∀ (st : ControllerState) (m : ExecutionMode) (p : Option GuardPolicy),
      (st.set_mode m p).1.armed = st.armed) := by
  refine ⟨?_, ?_, ?_, ?_, ?_⟩
  · intro st m p h hm
    by_contra hmode
    rw [ControllerState.set_mode, if_pos ⟨hm, hmode⟩] at h
    simp at h
  · intro st p
    constructor
    · intro hmode
      rw [ControllerState.set_mode, if_pos ⟨by simp, by rw [hmode]; simp⟩]
    · intro hmode
      rw [ControllerState.set_mode, if_pos ⟨by simp, by rw [hmode]; simp⟩]
  · intro st hmode
    rw [ControllerState.set_mode, if_neg (by simp [hmode]), if_pos (by simp)]
  · intro st m pol hm
    by_cases h1 : m ≠ .SAFE ∧ st.mode ≠ .SAFE
    · exact ⟨"Mode escalation must pass through SAFE.",
        by rw [ControllerState.set_mode, if_pos h1]⟩
    · refine ⟨"Policies may only be set in GUARDED mode.", ?_⟩
      rw [ControllerState.set_mode, if_neg h1, if_neg (by simp [hm]), if_pos (by simp [hm])]
  · intro st m p
    rw [ControllerState.set_mode]
    split_ifs <;> rfl

theorem _evaluate_manual_loop_all_true (f : ExecutionStep → Bool) (steps : List ExecutionStep)
    (h : ∀ s ∈ steps, f s = true) :
    _evaluate_manual_loop f steps =
      (steps, .ok (steps.map fun s =>
        { step_sequence := s.sequence, allowed := true, reason := "Confirmed manually." })) := by
  induction steps with
  | nil => rfl
  | cons s rest ih =>
    have hs : f s = true := h s (by simp)
    have ih' := ih (fun x hx => h x (by simp [hx]))
    simp [_evaluate_manual_loop, hs, ih', Except.map]

theorem _evaluate_manual_loop_reject (f : ExecutionStep → Bool) (steps : List ExecutionStep)
    (h : ∃ s ∈ steps, f s = false) :
    (_evaluate_manual_loop f steps).2 =
      .error (.executionBlocked "Manual confirmation rejected.") := by
  induction steps with
  | nil => simp at h
  | cons s rest ih =>
    by_cases hs : f s = true
    · have hrest : ∃ x ∈ rest, f x = false := by
        rcases h with ⟨x, hx, hfx⟩
        rcases List.mem_cons.1 hx with rfl | hx'
        · rw [hs] at hfx; exact absurd hfx (by simp)
        · exact ⟨x, hx', hfx⟩
      have := ih hrest
      simp only [_evaluate_manual_loop, hs, if_true]
      cases hloop : _evaluate_manual_loop f rest with
      | mk trace r =>
        rw [hloop] at this
        simp only at this
        simp [this, Except.map]
    · have hs' : f s = false := by simpa using hs
      simp [_evaluate_manual_loop, hs']

/-- C4: armed MANUAL controller on a valid plan: a missing callback raises
`ExecutionBlockedError`; an all-true callback is invoked once per step in step
order and one allowed decision per step is returned in plan order; any
rejection aborts with `ExecutionBlockedError` and no decisions. -/
theorem C4_manual_mode :
    ∀ (st : ControllerState) (plan : ExecutionPlan),
      validate_plan plan = .ok () → st.armed = true → st.mode = .MANUAL →
      (st.evaluate_plan plan none =
        ([], .error (.ctrl (.executionBlocked "Manual mode requires per-step confirmation.")))) ∧
      (∀ f : ExecutionStep → Bool, (∀ s ∈ plan.steps, f s = true) →
        st.evaluate_plan plan (some f) =
          (plan.steps, .ok (plan.steps.map fun s =>
            { step_sequence := s.sequence, allowed := true, reason := "Confirmed manually." }))) ∧
      (∀ f : ExecutionStep → Bool, (∃ s ∈ plan.steps, f s = false) →
        (st.evaluate_plan plan (some f)).2 =
          .error (.ctrl (.executionBlocked "Manual confirmation rejected."))) := by
  intro st plan hv harm hmode
  refine ⟨?_, ?_, ?_⟩
  · simp [ControllerState.evaluate_plan, hv, harm, hmode, _evaluate_manual, Except.mapError]
  · intro f hall
    simp [ControllerState.evaluate_plan, hv, harm, hmode, _evaluate_manual,
      _evaluate_manual_loop_all_true f plan.steps hall, Except.mapError]
  · intro f hex
    have hrej := _evaluate_manual_loop_reject f plan.steps hex
    simp only [ControllerState.evaluate_plan, hv, harm, hmode, _evaluate_manual]
    cases hloop : _evaluate_manual_loop f plan.steps with
    | mk trace r =>
      rw [hloop] at hrej
      simp only at hrej
      simp [hrej, Except.mapError]

/-- C5: armed GUARDED controller with an installed policy: the violation list
is the concatenation over all steps and is nonempty iff some step violates;
when nonempty, `PolicyViolationError` lists all violations and zero decisions
are returned; when empty, one allowed decision per step is returned in plan
order; an absent asset allow-list leaves only the action-type check. -/
theorem C5_guarded_mode :
    ∀ (st : ControllerState) (plan : ExecutionPlan) (pol : GuardPolicy)
      (confirm : Option (ExecutionStep → Bool)),
      validate_plan plan = .ok () → st.armed = true → st.mode = .GUARDED →
      st.policy = some pol →
      (pol.validate_steps plan.steps ≠ [] →
        st.evaluate_plan plan confirm =
          ([], .error (.ctrl (.policyViolation
            ("Policy violation: " ++ String.intercalate ", " (pol.validate_steps plan.steps)))))) ∧
      (pol.validate_steps plan.steps = [] →
        st.evaluate_plan plan confirm =
          ([], .ok (plan.steps.map fun s =>
            { step_sequence := s.sequence, allowed := true, reason := "Guarded policy passed." }))) ∧
      (pol.validate_steps plan.steps ≠ [] ↔ ∃ s ∈ plan.steps, pol.validate_step s ≠ []) ∧
      (pol.allowed_assets = none →
        ∀ s : ExecutionStep, pol.validate_step s =
          if s.action_type ∈ pol.allowed_action_types then [] else ["Action type not allowed."]) := by
  intro st plan pol confirm hv harm hmode hpol
  refine ⟨?_, ?_, ?_, ?_⟩
  · intro hviol
    simp [ControllerState.evaluate_plan, hv, harm, hmode, _evaluate_guarded, hpol, hviol,
      Except.mapError]
  · intro hok
    simp [ControllerState.evaluate_plan, hv, harm, hmode, _evaluate_guarded, hpol, hok,
      Except.mapError]
  · unfold GuardPolicy.validate_steps
    constructor
    · intro hne
      by_contra hnot
      push_neg at hnot
      exact hne (List.flatMap_eq_nil_iff.2 hnot)
    · intro ⟨s, hmem, hne⟩ hnil
      exact hne (List.flatMap_eq_nil_iff.1 hnil s hmem)
  · intro hnone s
    unfold GuardPolicy.validate_step
    rw [hnone]
    by_cases hmem : s.action_type ∈ pol.allowed_action_types <;> simp [hmem]

/-- C2 witness: the armed fresh controller blocks the concrete `validPlan`. -/
theorem C2_witness :
    (ControllerState.initial.arm).evaluate_plan validPlan none =
      ([], .error (.ctrl (.executionBlocked "SAFE mode blocks execution."))) :=
  C2_fail_closed.2.2 validPlan none (by decide)

/-- C3 witness: a direct MANUAL→GUARDED transition fails with
`ModeTransitionError`, state unchanged. -/
theorem C3_witness :
    manualArmed.set_mode .GUARDED (some guardPolicyEx) =
      (manualArmed, some (.modeTransition "Mode escalation must pass through SAFE.")) :=
  (C3_mode_state_machine.2.1 manualArmed (some guardPolicyEx)).1 (by decide)

/-- C4 witness: the always-true callback on `validPlan` yields exactly one
allowed decision per step, with the callback invoked on each step in order. -/
theorem C4_witness :
    manualArmed.evaluate_plan validPlan (some fun _ => true) =
      (validPlan.steps, .ok (validPlan.steps.map fun s =>
        { step_sequence := s.sequence, allowed := true, reason := "Confirmed manually." })) :=
  (C4_manual_mode manualArmed validPlan (by decide) (by decide) (by decide)).2.1
    (fun _ => true) (fun _ _ => rfl)

/-- C5 witness: a SWAP-only policy with allow-listed assets approves
`validPlan` with one allowed decision per step. -/
theorem C5_witness :
    guardedArmed.evaluate_plan validPlan none =
      ([], .ok (validPlan.steps.map fun s =>
        { step_sequence := s.sequence, allowed := true, reason := "Guarded policy passed." })) :=
  (C5_guarded_mode guardedArmed validPlan guardPolicyEx none (by decide) (by decide) (by decide)
    (by decide)).2.1 (by decide)

theorem b64val_b64char : ∀ n < 64, b64val (b64char n) = n := by decide

theorem b64char_ne_pad : ∀ n < 64, b64char n ≠ '=' := by decide

theorem b64_roundtrip : ∀ bs : List Nat, (∀ b ∈ bs, b < 256) →
    b64decodeChars (b64encodeBytes bs) = bs := by
  intro bs
  induction bs using b64encodeBytes.induct with
  | case1 => intro _; rfl
  | case2 a =>
    intro h
    have ha : a < 256 := h a (by simp)
    have h1 := b64val_b64char (a / 4) (by omega)
    have h2 := b64val_b64char (a % 4 * 16) (by omega)
    simp [b64encodeBytes, b64decodeChars, h1, h2]
    omega
  | case3 a b =>
    intro h
    have ha : a < 256 := h a (by simp)
    have hb : b < 256 := h b (by simp)
    have h1 := b64val_b64char (a / 4) (by omega)
    have h2 := b64val_b64char (a % 4 * 16 + b / 16) (by omega)
    have h3 := b64val_b64char (b % 16 * 4) (by omega)
    have hne := b64char_ne_pad (b % 16 * 4) (by omega)
    simp [b64encodeBytes, b64decodeChars, h1, h2, h3, hne]
    constructor <;> omega
  | case4 a b c rest ih =>
    intro h
    have ha : a < 256 := h a (by simp)
    have hb : b < 256 := h b (by simp)
    have hc : c < 256 := h c (by simp)
    have h1 := b64val_b64char (a / 4) (by omega)
    have h2 := b64val_b64char (a % 4 * 16 + b / 16) (by omega)
    have h3 := b64val_b64char (b % 16 * 4 + c / 64) (by omega)
    have h4 := b64val_b64char (c % 64) (by omega)
    have hne3 := b64char_ne_pad (b % 16 * 4 + c / 64) (by omega)
    have hne4 := b64char_ne_pad (c % 64) (by omega)
    have ih' := ih (fun x hx => h x (by simp [hx]))
    simp [b64encodeBytes, b64decodeChars, hne3, hne4, h1, h2, h3, h4, ih']
    refine ⟨by omega, by omega, by omega⟩

theorem b64_string_roundtrip (bs : List Nat) (h : ∀ b ∈ bs, b < 256) :
    _b64decode (_b64encode bs) = bs := by
  show b64decodeChars (String.mk (b64encodeBytes bs)).data = bs
  exact b64_roundtrip bs h

theorem zipWith_xor_lt (xs : List Nat) :
    ∀ ys : List Nat, (∀ x ∈ xs, x < 256) → (∀ y ∈ ys, y < 256) →
    ∀ z ∈ List.zipWith (fun a b => a ^^^ b) xs ys, z < 256 := by
  induction xs with
  | nil => simp
  | cons x xs ih =>
    intro ys hx hy
    cases ys with
    | nil => simp
    | cons y ys =>
      intro z hz
      rcases List.mem_cons.1 hz with rfl | hz'
      · have h8 : (256 : ℕ) = 2 ^ 8 := by norm_num
        rw [h8]
        exact Nat.xor_lt_two_pow (h8 ▸ hx x (by simp)) (h8 ▸ hy y (by simp))
      · exact ih ys (fun a ha => hx a (by simp [ha])) (fun a ha => hy a (by simp [ha])) z hz'

theorem zipWith_xor_cancel (xs : List Nat) :
    ∀ ys : List Nat, xs.length ≤ ys.length →
    List.zipWith (fun a b => a ^^^ b) (List.zipWith (fun a b => a ^^^ b) xs ys) ys = xs := by
  induction xs with
  | nil => simp
  | cons x xs ih =>
    intro ys h
    cases ys with
    | nil => simp at h
    | cons y ys =>
      simp only [List.zipWith_cons_cons, List.cons.injEq]
      constructor
      · rw [Nat.xor_assoc, Nat.xor_self, Nat.xor_zero]
      · exact ih ys (by simpa using h)

theorem sum_map_const_range (c : Nat) : ∀ k : Nat, ((List.range k).map fun _ => c).sum = c * k := by
  intro k
  induction k with
  | zero => simp
  | succ n ih =>
    rw [List.range_succ, List.map_append, List.sum_append, ih]
    simp [Nat.mul_succ]

theorem _keystream_length (prims : CryptoPrims) (key nonce : List Nat) (n : Nat)
    (hd : ∀ k m, (prims.hmacSha256 k m).length = 32) :
    (_keystream prims key nonce n).length = n := by
  unfold _keystream
  rw [List.length_take]
  have hlen : (((List.range ((n + 31) / 32)).map
      (fun counter => prims.hmacSha256 key (nonce ++ be4 counter))).flatten).length
      = 32 * ((n + 31) / 32) := by
    rw [List.length_flatten, List.map_map]
    have : ((List.range ((n + 31) / 32)).map
        (List.length ∘ fun counter => prims.hmacSha256 key (nonce ++ be4 counter)))
        = (List.range ((n + 31) / 32)).map fun _ => 32 := by
      apply List.map_congr_left
      intro a _
      exact hd key (nonce ++ be4 a)
    rw [this, sum_map_const_range]
  rw [hlen]
  omega

theorem _keystream_mem_lt (prims : CryptoPrims) (key nonce : List Nat) (n : Nat)
    (hb : ∀ k m b, b ∈ prims.hmacSha256 k m → b < 256) :
    ∀ b ∈ _keystream prims key nonce n, b < 256 := by
  intro b hbmem
  unfold _keystream at hbmem
  have hflat := List.take_subset _ _ hbmem
  rcases List.mem_flatten.1 hflat with ⟨block, hblock, hbin⟩
  rcases List.mem_map.1 hblock with ⟨counter, _, rfl⟩
  exact hb _ _ b hbin

theorem decrypt_encrypt (prims : CryptoPrims) (iterations : Nat)
    (plaintext passphrase salt nonce : List Nat)
    (hd : ∀ k m, (prims.hmacSha256 k m).length = 32)
    (hb : ∀ k m b, b ∈ prims.hmacSha256 k m → b < 256)
    (hpt : ∀ x ∈ plaintext, x < 256)
    (hsalt : ∀ x ∈ salt, x < 256) (hnonce : ∀ x ∈ nonce, x < 256) :
    PassphraseEncryptor.decrypt prims iterations
      (PassphraseEncryptor.encrypt prims iterations plaintext passphrase salt nonce) passphrase
      = .ok plaintext := by
  unfold PassphraseEncryptor.encrypt PassphraseEncryptor.decrypt
  simp only
  set key := _derive_key prims iterations passphrase salt nonce with hkey
  set ks := _keystream prims key nonce plaintext.length with hks
  set ct := List.zipWith (fun a b => a ^^^ b) plaintext ks with hct
  have hksl : ks.length = plaintext.length := _keystream_length prims key nonce _ hd
  have hksb : ∀ x ∈ ks, x < 256 := _keystream_mem_lt prims key nonce _ hb
  have hctb : ∀ x ∈ ct, x < 256 := zipWith_xor_lt plaintext ks hpt hksb
  have hmacb : ∀ x ∈ prims.hmacSha256 key ct, x < 256 := fun x hx => hb _ _ x hx
  rw [b64_string_roundtrip salt hsalt, b64_string_roundtrip nonce hnonce,
    b64_string_roundtrip ct hctb, b64_string_roundtrip _ hmacb]
  rw [← hkey, if_neg (by intro h; exact h rfl)]
  have hctl : ct.length = plaintext.length := by
    rw [hct, List.length_zipWith, hksl, Nat.min_self]
  rw [hctl, ← hks]
  rw [hct, zipWith_xor_cancel plaintext ks (by omega)]

theorem load_store (ks : List WalletRecord) (r : WalletRecord) :
    loadRecord (storeRecord ks r) r.metadata.wallet_id = .ok r := by
  induction ks with
  | nil => simp [storeRecord, loadRecord]
  | cons item rest ih =>
    by_cases h : item.metadata.wallet_id = r.metadata.wallet_id
    · simp [storeRecord, h, loadRecord]
    · simp only [storeRecord, h, if_false]
      unfold loadRecord at ih ⊢
      rw [List.find?_cons_of_neg _ (by simpa using h)]
      exact ih

/-- C6: when the recomputed MAC disagrees with the stored MAC,
`PassphraseEncryptor.decrypt` returns `AuthenticationError` and no plaintext,
and `WalletCore.unlock` propagates the error leaving the whole in-memory
state, including the unlocked-session fields, unchanged. -/
theorem C6_wrong_passphrase :
    ∀ (prims : CryptoPrims) (iterations : Nat) (st : WalletCoreState) (wallet_id : String)
      (passphrase : List Nat) (record : WalletRecord),
      loadRecord st.keystore wallet_id = .ok record →
      prims.hmacSha256
          (_derive_key prims iterations passphrase (_b64decode record.encrypted_seed.salt)
            (_b64decode record.encrypted_seed.nonce))
          (_b64decode record.encrypted_seed.ciphertext)
        ≠ _b64decode record.encrypted_seed.mac →
      PassphraseEncryptor.decrypt prims iterations record.encrypted_seed passphrase =
          .error (.authentication "Invalid passphrase or corrupted payload.") ∧
        WalletCore.unlock prims iterations st wallet_id passphrase =
          (st, .error (.authentication "Invalid passphrase or corrupted payload.")) := by
  intro prims iterations st wallet_id passphrase record hload hmis
  have hdec : PassphraseEncryptor.decrypt prims iterations record.encrypted_seed passphrase =
      .error (.authentication "Invalid passphrase or corrupted payload.") := by
    unfold PassphraseEncryptor.decrypt
    simp only
    rw [if_pos hmis]
  refine ⟨hdec, ?_⟩
  unfold WalletCore.unlock
  rw [hload]
  simp only [hdec]

/-- C9 (spec-modelled): `export_recovery_phrase` fails with the locked-wallet
error unless the wallet has an active unlocked session, otherwise returns the
deterministic encoding of the seed, and never changes the state - in
particular, nothing is written to the persisted keystore. -/
theorem C9_recovery_phrase_export :
    ∀ (st : WalletCoreState) (wallet_id : String),
      ((st.unlocked_seed = none ∨ st.unlocked_wallet_id ≠ some wallet_id) →
        WalletCore.export_recovery_phrase st wallet_id =
          (st, .error (.locked "Wallet is locked."))) ∧
      (∀ seed : List Nat, st.unlocked_seed = some seed →
        st.unlocked_wallet_id = some wallet_id →
        WalletCore.export_recovery_phrase st wallet_id =
          (st, .ok (_recovery_phrase_encoding seed))) ∧
      ((WalletCore.export_recovery_phrase st wallet_id).1 = st ∧
        (WalletCore.export_recovery_phrase st wallet_id).1.keystore = st.keystore) := by
  intro st wallet_id
  refine ⟨?_, ?_, ?_⟩
  · intro hlock
    unfold WalletCore.export_recovery_phrase WalletCore._require_unlocked
    rcases hlock with hnone | hwid
    · rw [hnone]
    · cases hseed : st.unlocked_seed with
      | none => rfl
      | some seed => simp [hwid]
  · intro seed hseed hwid
    unfold WalletCore.export_recovery_phrase WalletCore._require_unlocked
    rw [hseed]
    simp [hwid]
  · unfold WalletCore.export_recovery_phrase WalletCore._require_unlocked
    cases st.unlocked_seed with
    | none => exact ⟨rfl, rfl⟩
    | some seed =>
      by_cases hwid : st.unlocked_wallet_id ≠ some wallet_id
      · simp [hwid]
      · simp [hwid]

/-- C10: for every plaintext, passphrase, salt and nonce (and any primitives
with SHA-256's 32-byte digest shape), `decrypt(encrypt(pt, pass), pass)`
returns the original plaintext; consequently unlocking a wallet with the
passphrase used at `create_wallet` recovers the original seed. -/
theorem C10_roundtrip :
    (∀ (prims : CryptoPrims) (iterations : Nat) (plaintext passphrase salt nonce : List Nat),
      (∀ k m, (prims.hmacSha256 k m).length = 32) →
      (∀ k m b, b ∈ prims.hmacSha256 k m → b < 256) →
      (∀ x ∈ plaintext, x < 256) → (∀ x ∈ salt, x < 256) → (∀ x ∈ nonce, x < 256) →
      PassphraseEncryptor.decrypt prims iterations
        (PassphraseEncryptor.encrypt prims iterations plaintext passphrase salt nonce) passphrase
        = .ok plaintext) ∧
    (∀ (prims : CryptoPrims) (iterations : Nat) (st : WalletCoreState) (label : String)
      (passphrase seed salt nonce : List Nat) (created_at : String),
      (∀ k m, (prims.hmacSha256 k m).length = 32) →
      (∀ k m b, b ∈ prims.hmacSha256 k m → b < 256) →
      (∀ x ∈ seed, x < 256) → (∀ x ∈ salt, x < 256) → (∀ x ∈ nonce, x < 256) →
      WalletCore.unlock prims iterations
          (WalletCore.create_wallet prims iterations st label passphrase seed salt nonce created_at).1
          (WalletCore.create_wallet prims iterations st label passphrase seed salt nonce created_at).2.wallet_id
          passphrase =
        ({ st with
            keystore := (WalletCore.create_wallet prims iterations st label passphrase seed salt
              nonce created_at).1.keystore,
            unlocked_seed := some seed,
            unlocked_wallet_id := some (WalletCore.create_wallet prims iterations st label
              passphrase seed salt nonce created_at).2.wallet_id },
         .ok { wallet_id := (WalletCore.create_wallet prims iterations st label passphrase seed
              salt nonce created_at).2.wallet_id, unlocked := true })) := by
  constructor
  · intro prims iterations plaintext passphrase salt nonce hd hb hpt hsalt hnonce
    exact decrypt_encrypt prims iterations plaintext passphrase salt nonce hd hb hpt hsalt hnonce
  · intro prims iterations st label passphrase seed salt nonce created_at hd hb hseed hsalt hnonce
    unfold WalletCore.unlock WalletCore.create_wallet
    simp only
    rw [load_store]
    simp only [decrypt_encrypt prims iterations seed passphrase salt nonce hd hb hseed hsalt hnonce]

/-- C6 witness: concrete primitives and a record with a mismatching MAC are
rejected and leave the custody state unchanged. -/
theorem C6_witness :
    PassphraseEncryptor.decrypt prims0 1 badRecord.encrypted_seed [] =
        .error (.authentication "Invalid passphrase or corrupted payload.") ∧
      WalletCore.unlock prims0 1 badState "w1" [] =
        (badState, .error (.authentication "Invalid passphrase or corrupted payload.")) :=
  C6_wrong_passphrase prims0 1 badState "w1" [] badRecord (by decide) (by decide)

/-- C9 witness: export succeeds on the unlocked wallet, fails for a wallet
without a session, and leaves the state unchanged. -/
theorem C9_witness :
    WalletCore.export_recovery_phrase unlockedState "w1" =
        (unlockedState, .ok (_recovery_phrase_encoding [1, 2, 3])) ∧
      WalletCore.export_recovery_phrase unlockedState "w2" =
        (unlockedState, .error (.locked "Wallet is locked.")) :=
  ⟨(C9_recovery_phrase_export unlockedState "w1").2.1 [1, 2, 3] (by decide) (by decide),
   (C9_recovery_phrase_export unlockedState "w2").1 (Or.inr (by decide))⟩

/-- C10 witness: concrete round-trip of `[1, 2, 3]`, and create-then-unlock
of a concrete wallet restoring its seed. -/
theorem C10_witness :
    PassphraseEncryptor.decrypt prims0 1
        (PassphraseEncryptor.encrypt prims0 1 [1, 2, 3] [9] [4] [5]) [9] = .ok [1, 2, 3] ∧
      WalletCore.unlock prims0 1 createdEx.1 createdEx.2.wallet_id [9] =
        ({ emptyWalletState with
            keystore := createdEx.1.keystore,
            unlocked_seed := some seedEx,
            unlocked_wallet_id := some createdEx.2.wallet_id },
         .ok { wallet_id := createdEx.2.wallet_id, unlocked := true }) :=
  ⟨C10_roundtrip.1 prims0 1 [1, 2, 3] [9] [4] [5] (fun _ _ => by simp [prims0])
      (fun k m b hbm => by simp [prims0] at hbm; omega)
      (by decide) (by decide) (by decide),
   C10_roundtrip.2 prims0 1 emptyWalletState "L" [9] seedEx [4] [5] "t" (fun _ _ => by simp [prims0])
      (fun k m b hbm => by simp [prims0] at hbm; omega)
      (by decide) (by decide) (by decide)⟩

end Thrive
